import Mathlib

/-!
Shallow embedding of the DjAI repository (mehmazirani/DjAI) for checking its
natural-language specification.

The embedded code:
  * `src/djai/model/models/cloud_ai_svc/google/translation.py`
    (`GoogleTranslate.load`, `GoogleTranslate.predict`)
  * `src/djai/model/models/ml/hugging_face/text_classification.py`
    (`PreTrainedHuggingFaceTextClassifier.predict`)
  * `src/djai/model/models/ml/hugging_face/audio_classification.py`
    (`PreTrainedHuggingFaceAudioClassifier.predict`)
  * `src/djai/data/models/{csv,json,image,parquet,video}.py`
    (dataset record-type declarations and their `Meta` table-name assertions)

External SDKs (the googletrans `Translator` and the Hugging Face pipeline
object stored in `native_obj`) are modelled as function-valued parameters so
that theorems quantify over every possible SDK behaviour; exceptions raised by
an SDK call are modelled with `Except`.  Python `None` is modelled with
`Option`; the truthiness test `if not self.client` is `Option.isNone` because
a constructed client object is always truthy.
-/

namespace DjAI

/-! ## Python dictionaries built by dict comprehensions

`predict` reshapes SDK output with dict comprehensions such as
`{i['label']: i['score'] for i in output}`.  A Python dict built from a list of
(key, value) pairs keeps the first-insertion position of each key and the last
value written to it. -/

/-- One step of Python dict insertion: `d[k] = v`.  If `k` is already present
its value is overwritten in place; otherwise the pair is appended. -/
def dictInsert {V : Type} (d : List (String × V)) (k : String) (v : V) :
    List (String × V) :=
  if d.any (fun p => p.1 = k) then
    d.map (fun p => if p.1 = k then (k, v) else p)
  else
    d ++ [(k, v)]

/-- Python dict comprehension over a list of (label, score) pairs:
`{label: score for (label, score) in ps}`. -/
def dictOfPairs {V : Type} (ps : List (String × V)) : List (String × V) :=
  ps.foldl (fun d p => dictInsert d p.1 p.2) []

/-! ## Input and output shapes

Python values passed to and returned from the `predict` methods, sorted by the
`isinstance` tests the source performs on them. -/

/-- A `text_or_texts` argument: a single `str`, a `list` of strings, or a
non-list non-string sequence of strings (e.g. a tuple). -/
inductive TextInput : Type
  | str (s : String)
  | list (ts : List String)
  | tup (ts : List String)
deriving DecidableEq

/-- Return value of `GoogleTranslate.predict`: a single translated string or a
list of translated strings. -/
inductive TextOutput : Type
  | str (s : String)
  | list (ts : List String)
deriving DecidableEq

/-- Return value of the classifier `predict` methods: a single label-to-score
mapping (a Python dict) or a list of such mappings. -/
inductive ClsOutput (S : Type) : Type
  | dict (d : List (String × S))
  | list (ds : List (List (String × S)))

/-- A numpy array of any dimensionality: a scalar or a nesting of arrays.  A
2-D array stacking several audio clips is `nd [nd c1, nd c2, ...]`. -/
inductive NdArray : Type
  | scalar (x : Int)
  | nd (xs : List NdArray)

/-- A single audio input item: a numpy array or a (file path) string. -/
inductive AudioItem : Type
  | arr (a : NdArray)
  | str (s : String)

/-- An `audio_or_audios` argument: one item (array or string), a `list` of
items, or a non-list non-string non-array sequence of items (e.g. a tuple). -/
inductive AudioInput : Type
  | arr (a : NdArray)
  | str (s : String)
  | list (xs : List AudioItem)
  | tup (xs : List AudioItem)

/-- Left-to-right evaluation of a list comprehension (or of a pipeline batch)
whose body may raise: the first exception aborts and propagates, otherwise the
results are collected in order. -/
def mapExcept {ε α β : Type} (f : α → Except ε β) : List α → Except ε (List β)
  | [] => Except.ok []
  | t :: ts =>
    match f t with
    | Except.error e => Except.error e
    | Except.ok r => (mapExcept f ts).map (fun rs => r :: rs)

/-! ## GoogleTranslate (translation.py) -/

/-- The googletrans `Translator` client object, reduced to what the source
uses: `client.translate(text=…, dest=…, src=…).text`.  The `Except` result is
the `.text` field of the response on success, and a raised exception
otherwise.  Argument order mirrors the call site: text, dest, src. -/
structure Client (ε : Type) : Type where
  translate : String → String → String → Except ε String

/-- A `Translator` whose calls never raise: the translated text is
`f text dest src`. -/
def Client.ofPure {ε : Type} (f : String → String → String → String) :
    Client ε :=
  ⟨fun t d s => Except.ok (f t d s)⟩

/-- A `Translator` every call of which raises the exception `e`. -/
def Client.failing {ε : Type} (e : ε) : Client ε :=
  ⟨fun _ _ _ => Except.error e⟩

/-- The in-memory state of a `GoogleTranslate` record: the class attribute
`client` (initially `None`) and the persisted configuration fields inherited
from `CloudAIService`, held abstract as one value of type `P` since
`predict`/`load` never touch them. -/
structure GTState (P ε : Type) : Type where
  client : Option (Client ε)
  persisted : P

/-- `GoogleTranslate.load`:
```
if not self.client:
    self.client = Translator()
```
`mk` is the (infallible) result of `Translator()`; Python returns `None`, so
the embedding returns only the updated state. -/
def GoogleTranslate.load {P ε : Type} (mk : Client ε) (st : GTState P ε) :
    GTState P ε :=
  if st.client.isNone then ⟨some mk, st.persisted⟩ else st

/-- How many `Translator()` constructor calls one execution of
`GoogleTranslate.load` performs from state `st`: one when `client` is still
`None`, none otherwise. -/
def GoogleTranslate.loadConstructions {P ε : Type} (st : GTState P ε) : Nat :=
  if st.client.isNone then 1 else 0

/-- Variant of `GoogleTranslate.load` in which the `Translator()` construction
itself may raise: `mkE` is the outcome of the constructor call. -/
def GoogleTranslate.loadE {P ε : Type} (mkE : Except ε (Client ε))
    (st : GTState P ε) : Except ε (GTState P ε) :=
  if st.client.isNone then mkE.map (fun c => ⟨some c, st.persisted⟩)
  else Except.ok st

/-- `GoogleTranslate.predict`:
```
self.load()
return (self.client.translate(text=text_or_texts, dest=dest, src=src).text
        if isinstance(text_or_texts, str)
        else [self.client.translate(text=text, dest=dest, src=src).text
              for text in text_or_texts])
```
A list and any other non-string sequence are iterated identically by the
comprehension.  The attribute read `self.client.translate` is safe exactly
because `load` ran first (the inline proof: after `load` the client is set);
the result pairs the post-`load` state with the returned value. -/
def GoogleTranslate.predict {P ε : Type} (mk : Client ε) (st : GTState P ε)
    (text_or_texts : TextInput) (src dest : String) :
    Except ε (GTState P ε × TextOutput) :=
  let st2 := GoogleTranslate.load mk st
  let c := st2.client.get (by
    show (GoogleTranslate.load mk st).client.isSome
    unfold GoogleTranslate.load
    cases h : st.client <;> simp [h, Option.isNone])
  match text_or_texts with
  | TextInput.str s =>
      (c.translate s dest src).map (fun t => (st2, TextOutput.str t))
  | TextInput.list ts =>
      (mapExcept (fun t => c.translate t dest src) ts).map
        (fun rs => (st2, TextOutput.list rs))
  | TextInput.tup ts =>
      (mapExcept (fun t => c.translate t dest src) ts).map
        (fun rs => (st2, TextOutput.list rs))

/-- `GoogleTranslate.predict` with its default keyword parameters
`src='auto', dest='en'`. -/
def GoogleTranslate.predictDefault {P ε : Type} (mk : Client ε)
    (st : GTState P ε) (text_or_texts : TextInput) :
    Except ε (GTState P ε × TextOutput) :=
  GoogleTranslate.predict mk st text_or_texts "auto" "en"

/-! ## Hugging Face transformer records (text_classification.py,
audio_classification.py)

Both classifier classes extend `PreTrainedHuggingFaceTransformer`, whose
module (`.base`) is not part of this excerpt; only its `load` method and its
lazily created `native_obj` pipeline handle are used here. -/

/-- The in-memory state of a pre-trained Hugging Face transformer record: the
lazily created pipeline handle `native_obj` (initially `None`) and the
persisted configuration fields, held abstract as one value of type `P`. -/
structure HFState (P Pl : Type) : Type where
  native_obj : Option Pl
  persisted : P

/-- Modelled from the spec: `PreTrainedHuggingFaceTransformer.load` (defined
in the `.base` module, which is missing from this excerpt) "lazily constructs
an underlying third-party client/pipeline object exactly once per in-memory
instance; no return value".  `mk` is the constructed pipeline. -/
def PreTrainedHuggingFaceTransformer.load {P Pl : Type} (mk : Pl)
    (st : HFState P Pl) : HFState P Pl :=
  if st.native_obj.isNone then ⟨some mk, st.persisted⟩ else st

/-- How many pipeline constructor calls one execution of
`PreTrainedHuggingFaceTransformer.load` performs from state `st`: one when
`native_obj` is still `None`, none otherwise. -/
def PreTrainedHuggingFaceTransformer.loadConstructions {P Pl : Type}
    (st : HFState P Pl) : Nat :=
  if st.native_obj.isNone then 1 else 0

/-! ### Text classification -/

/-- The Hugging Face text-classification pipeline stored in `native_obj`,
reduced to what the source uses.  Invoked as
`self.native_obj(text_or_texts, return_all_scores=True, function_to_apply=None)`:
on a single string it returns a one-element batch `[classify s]`, on a list it
returns one `(label, score)` list per text, in order; `classify` is that
per-text behaviour, scores of abstract type `S`, with exceptions in `ε`. -/
structure TextPipeline (ε S : Type) : Type where
  classify : String → Except ε (List (String × S))

/-- A text pipeline that never raises: the all-scores list for a text `t` is
`g t`. -/
def TextPipeline.ofPure {ε S : Type} (g : String → List (String × S)) :
    TextPipeline ε S :=
  ⟨fun t => Except.ok (g t)⟩

/-- A text pipeline every call of which raises the exception `e`. -/
def TextPipeline.failing {ε S : Type} (e : ε) : TextPipeline ε S :=
  ⟨fun _ => Except.error e⟩

/-- The input-normalization step of
`PreTrainedHuggingFaceTextClassifier.predict`:
```
single_text: bool = isinstance(text_or_texts, str)
if not (single_text or isinstance(text_or_texts, list)):
    text_or_texts = list(text_or_texts)
```
a string or list is left alone; any other sequence is converted to a list. -/
def textNormalize : TextInput → TextInput
  | TextInput.tup ts => TextInput.list ts
  | x => x

/-- `PreTrainedHuggingFaceTextClassifier.predict`:
```
... normalization as in textNormalize ...
self.load()
output = self.native_obj(text_or_texts, return_all_scores=True,
                         function_to_apply=None)
return ({i['label']: i['score'] for i in output[0]}
        if single_text
        else [{i['label']: i['score'] for i in result} for result in output])
```
For a single string the batch is `[classify s]` and `output[0]` is
`classify s`; for a (normalized) list the per-text results are reshaped in
order.  The result pairs the post-`load` state with the returned value. -/
def PreTrainedHuggingFaceTextClassifier.predict {P ε S : Type}
    (mk : TextPipeline ε S) (st : HFState P (TextPipeline ε S))
    (text_or_texts : TextInput) :
    Except ε (HFState P (TextPipeline ε S) × ClsOutput S) :=
  let st2 := PreTrainedHuggingFaceTransformer.load mk st
  let p := st2.native_obj.get (by
    show (PreTrainedHuggingFaceTransformer.load mk st).native_obj.isSome
    unfold PreTrainedHuggingFaceTransformer.load
    cases h : st.native_obj <;> simp [h, Option.isNone])
  match textNormalize text_or_texts with
  | TextInput.str s =>
      (p.classify s).map (fun r => (st2, ClsOutput.dict (dictOfPairs r)))
  | TextInput.list ts =>
      (mapExcept p.classify ts).map
        (fun rs => (st2, ClsOutput.list (rs.map dictOfPairs)))
  | TextInput.tup ts =>
      (mapExcept p.classify ts).map
        (fun rs => (st2, ClsOutput.list (rs.map dictOfPairs)))

/-! ### Audio classification -/

/-- The Hugging Face audio-classification pipeline stored in `native_obj`,
reduced to what the source uses.  Invoked as
`self.native_obj(inputs=audio_or_audios, top_k=n_labels)`: on a single item it
returns its `(label, score)` list, on a list one such list per item, in order;
`classify` is that per-item behaviour given the `top_k` value. -/
structure AudioPipeline (ε S : Type) : Type where
  classify : AudioItem → Nat → Except ε (List (String × S))

/-- An audio pipeline that never raises: the result for item `x` with `top_k`
`k` is `g x k`. -/
def AudioPipeline.ofPure {ε S : Type}
    (g : AudioItem → Nat → List (String × S)) : AudioPipeline ε S :=
  ⟨fun x k => Except.ok (g x k)⟩

/-- An audio pipeline every call of which raises the exception `e`. -/
def AudioPipeline.failing {ε S : Type} (e : ε) : AudioPipeline ε S :=
  ⟨fun _ _ => Except.error e⟩

/-- The input-normalization step of
`PreTrainedHuggingFaceAudioClassifier.predict`:
```
single_audio: bool = isinstance(audio_or_audios, (numpy.ndarray, str))
if not (single_audio or isinstance(audio_or_audios, list)):
    audio_or_audios = list(audio_or_audios)
```
a numpy array (of any dimensionality), a string, or a list is left alone; any
other sequence is converted to a list. -/
def audioNormalize : AudioInput → AudioInput
  | AudioInput.tup xs => AudioInput.list xs
  | x => x

/-- `isinstance(audio_or_audios, (numpy.ndarray, str))`. -/
def AudioInput.isSingle : AudioInput → Bool
  | AudioInput.arr _ => true
  | AudioInput.str _ => true
  | AudioInput.list _ => false
  | AudioInput.tup _ => false

/-- `PreTrainedHuggingFaceAudioClassifier.predict`:
```
... normalization as in audioNormalize ...
self.load()
output = self.native_obj(inputs=audio_or_audios, top_k=n_labels)
return ({i['label']: i['score'] for i in output}
        if single_audio
        else [{i['label']: i['score'] for i in result} for result in output])
```
The result pairs the post-`load` state with the returned value. -/
def PreTrainedHuggingFaceAudioClassifier.predict {P ε S : Type}
    (mk : AudioPipeline ε S) (st : HFState P (AudioPipeline ε S))
    (audio_or_audios : AudioInput) (n_labels : Nat) :
    Except ε (HFState P (AudioPipeline ε S) × ClsOutput S) :=
  let st2 := PreTrainedHuggingFaceTransformer.load mk st
  let p := st2.native_obj.get (by
    show (PreTrainedHuggingFaceTransformer.load mk st).native_obj.isSome
    unfold PreTrainedHuggingFaceTransformer.load
    cases h : st.native_obj <;> simp [h, Option.isNone])
  match audioNormalize audio_or_audios with
  | AudioInput.arr a =>
      (p.classify (AudioItem.arr a) n_labels).map
        (fun r => (st2, ClsOutput.dict (dictOfPairs r)))
  | AudioInput.str s =>
      (p.classify (AudioItem.str s) n_labels).map
        (fun r => (st2, ClsOutput.dict (dictOfPairs r)))
  | AudioInput.list xs =>
      (mapExcept (fun x => p.classify x n_labels) xs).map
        (fun rs => (st2, ClsOutput.list (rs.map dictOfPairs)))
  | AudioInput.tup xs =>
      (mapExcept (fun x => p.classify x n_labels) xs).map
        (fun rs => (st2, ClsOutput.list (rs.map dictOfPairs)))

/-- `PreTrainedHuggingFaceAudioClassifier.predict` with its default keyword
parameter `n_labels=5`. -/
def PreTrainedHuggingFaceAudioClassifier.predictDefault {P ε S : Type}
    (mk : AudioPipeline ε S) (st : HFState P (AudioPipeline ε S))
    (audio_or_audios : AudioInput) :
    Except ε (HFState P (AudioPipeline ε S) × ClsOutput S) :=
  PreTrainedHuggingFaceAudioClassifier.predict mk st audio_or_audios 5

/-! ## Database table names and the class-definition-time assertion

Each concrete record class computes
```
db_table: str = (f'{<ModuleConfig>.label}_'
                 f"{__qualname__.split(sep='.', maxsplit=1)[0]}")
assert len(db_table) <= PGSQL_IDENTIFIER_MAX_LEN, \
    ValueError(f'*** "{db_table}" DB TABLE NAME TOO LONG ***')
```
inside its `Meta` class body, so the `assert` runs when the class statement is
executed (module import / process start), before any database access. -/

/-- Modelled from the spec: `djai.util.PGSQL_IDENTIFIER_MAX_LEN` (the
`djai/util` module is missing from this excerpt) is "the storage engine's
maximum identifier length"; for PostgreSQL that is 63 bytes. -/
def PGSQL_IDENTIFIER_MAX_LEN : Nat := 63

/-- Modelled from the spec: the app label of `DjAIModelModuleConfig`
(`djai/model/apps.py` is missing from this excerpt), the fixed prefix of the
model-module table names. -/
def DjAIModelModuleConfigLabel : String := "DjAI_Model"

/-- Modelled from the spec: the app label of `DjAIDataModuleConfig`
(`djai/data/apps.py` is missing from this excerpt), the fixed prefix of the
data-module table names. -/
def DjAIDataModuleConfigLabel : String := "DjAI_Data"

/-- `__qualname__.split(sep='.', maxsplit=1)[0]`: inside `class C: class Meta`
the qualname is `"C.Meta"`, so this recovers the outer class name `C` — the
characters before the first dot (the whole string when there is none). -/
def qualnameHead (q : String) : String :=
  String.mk (q.data.takeWhile (fun c => c ≠ '.'))

/-- The `db_table` f-string: app label, underscore, outer class name taken
from `__qualname__`. -/
def db_table (label qualname : String) : String :=
  label ++ "_" ++ qualnameHead qualname

/-- Executing a `Meta` class body: compute `db_table`, then run the `assert`.
If the name is longer than `PGSQL_IDENTIFIER_MAX_LEN` the assertion fails and
the class definition raises at definition time (module import); otherwise the
class definition succeeds and yields the table name.  No length check exists
anywhere else, so a violation can only surface here, never at first database
access. -/
def defineMeta (label qualname : String) : Except String String :=
  let t := db_table label qualname
  if t.length ≤ PGSQL_IDENTIFIER_MAX_LEN then Except.ok t
  else Except.error ("*** \"" ++ t ++ "\" DB TABLE NAME TOO LONG ***")

/-! ## Dataset record-type declarations (data/models/*.py)

Each class is transcribed as a declaration record: whether its `Meta` body
sets `abstract = True`, which database columns the class body adds beyond its
base classes, and which methods it adds. -/

/-- What one record-type class declaration contributes beyond its bases. -/
structure RecordTypeDecl : Type where
  name : String
  isAbstract : Bool
  addedColumns : List String
  addedMethods : List String
deriving DecidableEq

/-- The dataset record types declared under `djai/data/models/`:
  * `CSVDataSet`, `ImageDataSet`, `ParquetDataSet`, `VideoDataSet`: body holds
    only a `Meta` with `abstract = True`;
  * `InDBJSONDataSet` (json.py): body adds the `in_db_json` `JSONField` and a
    `Meta` that sets `db_table` and `default_related_name` but not
    `abstract`, so it maps to its own table;
  * `_FileDataSetWithInDBJSONCacheABC`, `JSONDataSet` (json.py): body holds
    only a `Meta` with `abstract = True`. -/
def datasetRecordTypes : List RecordTypeDecl :=
  [⟨"CSVDataSet", true, [], []⟩,
   ⟨"ImageDataSet", true, [], []⟩,
   ⟨"ParquetDataSet", true, [], []⟩,
   ⟨"VideoDataSet", true, [], []⟩,
   ⟨"InDBJSONDataSet", false, ["in_db_json"], []⟩,
   ⟨"_FileDataSetWithInDBJSONCacheABC", true, [], []⟩,
   ⟨"JSONDataSet", true, [], []⟩]

/-- The `(label, __qualname__)` pairs of the four `Meta` bodies in this
excerpt that compute a `db_table` and assert its length: `InDBJSONDataSet`
(json.py), `GoogleTranslate` (translation.py),
`PreTrainedHuggingFaceTextClassifier` (text_classification.py),
`PreTrainedHuggingFaceAudioClassifier` (audio_classification.py). -/
def declaredTableMetas : List (String × String) :=
  [(DjAIDataModuleConfigLabel, "InDBJSONDataSet.Meta"),
   (DjAIModelModuleConfigLabel, "GoogleTranslate.Meta"),
   (DjAIModelModuleConfigLabel, "PreTrainedHuggingFaceTextClassifier.Meta"),
   (DjAIModelModuleConfigLabel, "PreTrainedHuggingFaceAudioClassifier.Meta")]

/-! ## Concrete test fixtures used by witnesses -/

/-- A concrete infallible `Translator`: "translates" by echoing the text. -/
def idClient : Client Unit := Client.ofPure (fun t _ _ => t)

/-- A concrete infallible text pipeline: every text scores as
`[("POSITIVE", 1), ("NEGATIVE", 0)]`. -/
def fixedTextPipeline : TextPipeline Unit Nat :=
  TextPipeline.ofPure (fun _ => [("POSITIVE", 1), ("NEGATIVE", 0)])

/-- A concrete infallible audio pipeline: every item scores as
`[("speech", 1)]`. -/
def fixedAudioPipeline : AudioPipeline Unit Nat :=
  AudioPipeline.ofPure (fun _ _ => [("speech", 1)])

/-- A concrete 2-D numpy array stacking two audio clips of three samples. -/
def stackedClips : NdArray :=
  NdArray.nd [NdArray.nd [NdArray.scalar 1, NdArray.scalar 2,
                          NdArray.scalar 3],
              NdArray.nd [NdArray.scalar 4, NdArray.scalar 5,
                          NdArray.scalar 6]]

/-! ## Helper lemmas -/

/-- `Except.map` yields `ok` only from `ok`. -/
theorem except_map_eq_ok {ε α β : Type} (f : α → β) (x : Except ε α) (pr : β)
    (h : x.map f = Except.ok pr) : ∃ y, x = Except.ok y ∧ pr = f y := by
  cases x with
  | error e => simp [Except.map] at h
  | ok y =>
      refine ⟨y, rfl, ?_⟩
      simpa [Except.map] using h.symm

/-- `mapExcept` over an exception-free body collects the mapped list. -/
theorem mapExcept_ofOk {ε α β : Type} (g : α → β) (ts : List α) :
    mapExcept (fun t => (Except.ok (g t) : Except ε β)) ts
      = Except.ok (ts.map g) := by
  induction ts with
  | nil => rfl
  | cons t ts ih => simp [mapExcept, ih, Except.map]

/-! ## Claims -/

/-- C1: for every single-item input to `predict` — a single string for
`GoogleTranslate.predict` and `PreTrainedHuggingFaceTextClassifier.predict`,
a single numpy array or string for
`PreTrainedHuggingFaceAudioClassifier.predict` — the returned value is a
single translated string or a single label-to-score mapping, never a
sequence. -/
theorem claim_C1_single_item_single_result {P ε S : Type}
    (mk : Client ε) (st : GTState P ε) (s src dest : String)
    (mkT : TextPipeline ε S) (stT : HFState P (TextPipeline ε S))
    (mkA : AudioPipeline ε S) (stA : HFState P (AudioPipeline ε S))
    (a : NdArray) (sa : String) (k : Nat) :
    (∀ pr, GoogleTranslate.predict mk st (TextInput.str s) src dest
        = Except.ok pr → ∃ t, pr.2 = TextOutput.str t) ∧
    (∀ pr, PreTrainedHuggingFaceTextClassifier.predict mkT stT
        (TextInput.str s) = Except.ok pr → ∃ d, pr.2 = ClsOutput.dict d) ∧
    (∀ pr, PreTrainedHuggingFaceAudioClassifier.predict mkA stA
        (AudioInput.arr a) k = Except.ok pr →
        ∃ d, pr.2 = ClsOutput.dict d) ∧
    (∀ pr, PreTrainedHuggingFaceAudioClassifier.predict mkA stA
        (AudioInput.str sa) k = Except.ok pr →
        ∃ d, pr.2 = ClsOutput.dict d) := by
  refine ⟨fun pr h => ?_, fun pr h => ?_, fun pr h => ?_, fun pr h => ?_⟩
  · simp only [GoogleTranslate.predict] at h
    obtain ⟨y, _, hpr⟩ := except_map_eq_ok _ _ _ h
    exact ⟨y, by rw [hpr]⟩
  · simp only [PreTrainedHuggingFaceTextClassifier.predict, textNormalize]
      at h
    obtain ⟨y, _, hpr⟩ := except_map_eq_ok _ _ _ h
    exact ⟨dictOfPairs y, by rw [hpr]⟩
  · simp only [PreTrainedHuggingFaceAudioClassifier.predict, audioNormalize]
      at h
    obtain ⟨y, _, hpr⟩ := except_map_eq_ok _ _ _ h
    exact ⟨dictOfPairs y, by rw [hpr]⟩
  · simp only [PreTrainedHuggingFaceAudioClassifier.predict, audioNormalize]
      at h
    obtain ⟨y, _, hpr⟩ := except_map_eq_ok _ _ _ h
    exact ⟨dictOfPairs y, by rw [hpr]⟩

/-- Witness for C1 at concrete inputs: an echo translator on `"hello"`, the
fixed text pipeline on `"great movie"`, the fixed audio pipeline on a 2-D
array and on a path string. -/
theorem claim_C1_witness :
    (∃ t, ((⟨some idClient, ()⟩ : GTState Unit Unit), TextOutput.str "hello").2
        = TextOutput.str t) ∧
    (∃ d, ((⟨some fixedTextPipeline, ()⟩ :
              HFState Unit (TextPipeline Unit Nat)),
           ClsOutput.dict
             (dictOfPairs [("POSITIVE", 1), ("NEGATIVE", 0)])).2
        = ClsOutput.dict d) ∧
    (∃ d, ((⟨some fixedAudioPipeline, ()⟩ :
              HFState Unit (AudioPipeline Unit Nat)),
           ClsOutput.dict (dictOfPairs [("speech", 1)])).2
        = ClsOutput.dict d) ∧
    (∃ d, ((⟨some fixedAudioPipeline, ()⟩ :
              HFState Unit (AudioPipeline Unit Nat)),
           ClsOutput.dict (dictOfPairs [("speech", 1)])).2
        = ClsOutput.dict d) := by
  obtain ⟨h1, h2, h3, h4⟩ := claim_C1_single_item_single_result
    idClient (⟨none, ()⟩ : GTState Unit Unit) "hello" "auto" "en"
    fixedTextPipeline (⟨none, ()⟩ : HFState Unit (TextPipeline Unit Nat))
    fixedAudioPipeline (⟨none, ()⟩ : HFState Unit (AudioPipeline Unit Nat))
    stackedClips "clip.wav" 5
  exact ⟨h1 _ rfl, h2 _ rfl, h3 _ rfl, h4 _ rfl⟩

/-- C2: for every sequence input to `predict` (length 0, 1 or more), the
returned value is a sequence of the same length, order-preserved: the i-th
result is the translation (resp. classification) of the i-th input item.
Stated for exception-free SDKs, on a fresh instance, for both list and
non-list sequence inputs. -/
theorem claim_C2_sequence_same_length_ordered {P ε S : Type}
    (f : String → String → String → String) (p : P) (ts : List String)
    (src dest : String) (g : String → List (String × S)) :
    (GoogleTranslate.predict (Client.ofPure f) (⟨none, p⟩ : GTState P ε)
        (TextInput.list ts) src dest
      = Except.ok (⟨some (Client.ofPure f), p⟩,
          TextOutput.list (ts.map (fun t => f t dest src)))) ∧
    (GoogleTranslate.predict (Client.ofPure f) (⟨none, p⟩ : GTState P ε)
        (TextInput.tup ts) src dest
      = Except.ok (⟨some (Client.ofPure f), p⟩,
          TextOutput.list (ts.map (fun t => f t dest src)))) ∧
    ((ts.map (fun t => f t dest src)).length = ts.length) ∧
    (PreTrainedHuggingFaceTextClassifier.predict (TextPipeline.ofPure g)
        (⟨none, p⟩ : HFState P (TextPipeline ε S)) (TextInput.list ts)
      = Except.ok (⟨some (TextPipeline.ofPure g), p⟩,
          ClsOutput.list (ts.map (fun t => dictOfPairs (g t))))) ∧
    (PreTrainedHuggingFaceTextClassifier.predict (TextPipeline.ofPure g)
        (⟨none, p⟩ : HFState P (TextPipeline ε S)) (TextInput.tup ts)
      = Except.ok (⟨some (TextPipeline.ofPure g), p⟩,
          ClsOutput.list (ts.map (fun t => dictOfPairs (g t))))) ∧
    ((ts.map (fun t => dictOfPairs (g t))).length = ts.length) := by
  refine ⟨?_, ?_, by simp, ?_, ?_, by simp⟩ <;>
    simp [GoogleTranslate.predict, GoogleTranslate.load,
          PreTrainedHuggingFaceTextClassifier.predict,
          PreTrainedHuggingFaceTransformer.load, textNormalize,
          Client.ofPure, TextPipeline.ofPure, mapExcept_ofOk, Except.map,
          Option.isNone]

/-- C3: `load` is idempotent.  A second call on the same instance leaves the
state unchanged, and across the two calls the underlying client/pipeline
constructor runs at most once (the Hugging Face `load` is modelled from the
spec, its `.base` module being absent from the excerpt).  Python `load`
returns `None`: the embedding returns only the state. -/
theorem claim_C3_load_idempotent_at_most_one_construction {P ε Pl : Type}
    (mk : Client ε) (st : GTState P ε) (mkP : Pl) (stH : HFState P Pl) :
    (GoogleTranslate.load mk (GoogleTranslate.load mk st)
       = GoogleTranslate.load mk st) ∧
    (GoogleTranslate.loadConstructions st
       + GoogleTranslate.loadConstructions (GoogleTranslate.load mk st)
       ≤ 1) ∧
    (PreTrainedHuggingFaceTransformer.load mkP
        (PreTrainedHuggingFaceTransformer.load mkP stH)
       = PreTrainedHuggingFaceTransformer.load mkP stH) ∧
    (PreTrainedHuggingFaceTransformer.loadConstructions stH
       + PreTrainedHuggingFaceTransformer.loadConstructions
           (PreTrainedHuggingFaceTransformer.load mkP stH)
       ≤ 1) := by
  obtain ⟨cl, p⟩ := st
  obtain ⟨n, q⟩ := stH
  cases cl <;> cases n <;>
    simp [GoogleTranslate.load, GoogleTranslate.loadConstructions,
          PreTrainedHuggingFaceTransformer.load,
          PreTrainedHuggingFaceTransformer.loadConstructions, Option.isNone]

/-- C4: the table-name length check is the `assert` in each `Meta` class
body, so it runs at class-definition time (`defineMeta`): any label/qualname
pair whose computed `db_table` exceeds `PGSQL_IDENTIFIER_MAX_LEN` makes the
class definition itself fail, and no other length check exists.  For the four
record types of this excerpt that declare a `db_table`, the computed names
are within the limit, so every class definition succeeds. -/
theorem claim_C4_table_name_checked_at_definition :
    (∀ label q, PGSQL_IDENTIFIER_MAX_LEN < (db_table label q).length →
       defineMeta label q = Except.error
         ("*** \"" ++ db_table label q ++ "\" DB TABLE NAME TOO LONG ***")) ∧
    declaredTableMetas.all (fun m => (defineMeta m.1 m.2).isOk) = true := by
  constructor
  · intro label q h
    simp [defineMeta, Nat.not_le.mpr h]
  · decide

/-- Witness for C4: a 60-character class name makes the computed table name 71
characters long, over the 63-character limit, and the class definition fails
with the assertion's message. -/
theorem claim_C4_witness :
    PGSQL_IDENTIFIER_MAX_LEN <
      (db_table "DjAI_Model"
        "XXXXXXXXXXXXXXXXXXXXXXXXXXXXXXXXXXXXXXXXXXXXXXXXXXXXXXXXXXXX.Meta"
        ).length ∧
    (defineMeta "DjAI_Model"
        "XXXXXXXXXXXXXXXXXXXXXXXXXXXXXXXXXXXXXXXXXXXXXXXXXXXXXXXXXXXX.Meta"
        ).isOk = false := by
  refine ⟨by decide, ?_⟩
  rw [claim_C4_table_name_checked_at_definition.1 "DjAI_Model"
    "XXXXXXXXXXXXXXXXXXXXXXXXXXXXXXXXXXXXXXXXXXXXXXXXXXXXXXXXXXXX.Meta"
    (by decide)]
  rfl

/-- C5: an exception raised by the SDK call inside `predict` (the
translation call or the classification pipeline call), or by the client
construction inside `load`, propagates unmodified to the caller: the very
exception `e` comes back, with nothing caught, wrapped or recovered. -/
theorem claim_C5_sdk_exceptions_propagate_unmodified {P ε S : Type} (e : ε)
    (p : P) (mk : Client ε) (mkT : TextPipeline ε S) (s src dest t : String)
    (ts : List String) :
    (GoogleTranslate.predict mk (⟨some (Client.failing e), p⟩ : GTState P ε)
        (TextInput.str s) src dest = Except.error e) ∧
    (GoogleTranslate.predict mk (⟨some (Client.failing e), p⟩ : GTState P ε)
        (TextInput.list (t :: ts)) src dest = Except.error e) ∧
    (GoogleTranslate.predict mk (⟨some (Client.failing e), p⟩ : GTState P ε)
        (TextInput.tup (t :: ts)) src dest = Except.error e) ∧
    (GoogleTranslate.loadE (Except.error e) (⟨none, p⟩ : GTState P ε)
        = Except.error e) ∧
    (PreTrainedHuggingFaceTextClassifier.predict mkT
        (⟨some (TextPipeline.failing e), p⟩ :
          HFState P (TextPipeline ε S)) (TextInput.str s)
        = Except.error e) ∧
    (PreTrainedHuggingFaceTextClassifier.predict mkT
        (⟨some (TextPipeline.failing e), p⟩ :
          HFState P (TextPipeline ε S)) (TextInput.list (t :: ts))
        = Except.error e) ∧
    (PreTrainedHuggingFaceTextClassifier.predict mkT
        (⟨some (TextPipeline.failing e), p⟩ :
          HFState P (TextPipeline ε S)) (TextInput.tup (t :: ts))
        = Except.error e) :=
  ⟨rfl, rfl, rfl, rfl, rfl, rfl, rfl⟩

/-- C6: `predict` accepts a single item or a sequence; a non-list sequence is
normalized to a list before the SDK call (for the audio classifier the two
then behave identically); the SDK is called with the fixed defaults —
`src='auto'`, `dest='en'` for translation, `n_labels=5` passed as `top_k` for
audio classification — and its output is reshaped into a string/mapping for a
single input or a same-order sequence thereof for a sequence input. -/
theorem claim_C6_normalization_defaults_reshaping {P ε S : Type}
    (f : String → String → String → String) (p : P) (s : String)
    (ts : List String) (mkA : AudioPipeline ε S)
    (stA : HFState P (AudioPipeline ε S)) (xs : List AudioItem)
    (ga : AudioItem → Nat → List (String × S)) (mk : Client ε)
    (st : GTState P ε) (x : TextInput) (y : AudioInput) (k : Nat)
    (a : NdArray) :
    (audioNormalize (AudioInput.tup xs) = AudioInput.list xs) ∧
    (PreTrainedHuggingFaceAudioClassifier.predict mkA stA
        (AudioInput.tup xs) k
      = PreTrainedHuggingFaceAudioClassifier.predict mkA stA
          (AudioInput.list xs) k) ∧
    (PreTrainedHuggingFaceAudioClassifier.predictDefault mkA stA y
      = PreTrainedHuggingFaceAudioClassifier.predict mkA stA y 5) ∧
    (GoogleTranslate.predictDefault mk st x
      = GoogleTranslate.predict mk st x "auto" "en") ∧
    (GoogleTranslate.predictDefault (Client.ofPure f)
        (⟨none, p⟩ : GTState P ε) (TextInput.str s)
      = Except.ok (⟨some (Client.ofPure f), p⟩,
          TextOutput.str (f s "en" "auto"))) ∧
    (GoogleTranslate.predictDefault (Client.ofPure f)
        (⟨none, p⟩ : GTState P ε) (TextInput.tup ts)
      = Except.ok (⟨some (Client.ofPure f), p⟩,
          TextOutput.list (ts.map (fun t => f t "en" "auto")))) ∧
    (PreTrainedHuggingFaceAudioClassifier.predictDefault
        (AudioPipeline.ofPure ga)
        (⟨none, p⟩ : HFState P (AudioPipeline ε S)) (AudioInput.arr a)
      = Except.ok (⟨some (AudioPipeline.ofPure ga), p⟩,
          ClsOutput.dict (dictOfPairs (ga (AudioItem.arr a) 5)))) ∧
    (PreTrainedHuggingFaceAudioClassifier.predictDefault
        (AudioPipeline.ofPure ga)
        (⟨none, p⟩ : HFState P (AudioPipeline ε S)) (AudioInput.tup xs)
      = Except.ok (⟨some (AudioPipeline.ofPure ga), p⟩,
          ClsOutput.list (xs.map (fun it => dictOfPairs (ga it 5))))) := by
  refine ⟨rfl, rfl, rfl, rfl, ?_, ?_, ?_, ?_⟩ <;>
    simp [GoogleTranslate.predictDefault, GoogleTranslate.predict,
          GoogleTranslate.load,
          PreTrainedHuggingFaceAudioClassifier.predictDefault,
          PreTrainedHuggingFaceAudioClassifier.predict,
          PreTrainedHuggingFaceTransformer.load, audioNormalize,
          Client.ofPure, AudioPipeline.ofPure, mapExcept_ofOk, Except.map,
          Option.isNone]

/-- C7 fails on the code: `InDBJSONDataSet` (json.py) is a dataset record
type declared in this repository whose `Meta` does not set `abstract = True`
(it declares its own `db_table` and `default_related_name`) and whose body
adds the `in_db_json` column, so not every dataset record type is an
abstract, column-free mixin. -/
theorem claim_C7_counterexample :
    ¬ (∀ d ∈ datasetRecordTypes,
         d.isAbstract = true ∧ d.addedColumns = []) := by
  decide

/-- C7 (amended): no dataset record type declared in this repository adds
operations or behavior; all of them are abstract mixins adding no columns,
except `InDBJSONDataSet`, which maps to its own table and adds exactly the
one `in_db_json` column. -/
theorem claim_C7_amended_datasets_are_declarative :
    (∀ d ∈ datasetRecordTypes,
       d.addedMethods = [] ∧
       (d.name = "InDBJSONDataSet" ∨
         (d.isAbstract = true ∧ d.addedColumns = []))) ∧
    (∃ d ∈ datasetRecordTypes,
       d.name = "InDBJSONDataSet" ∧ d.isAbstract = false ∧
       d.addedColumns = ["in_db_json"] ∧ d.addedMethods = []) := by
  decide

/-- Witness for C7 (amended) at a concrete record type: the `CSVDataSet`
declaration is an abstract mixin adding nothing. -/
theorem claim_C7_witness :
    (⟨"CSVDataSet", true, [], []⟩ : RecordTypeDecl).addedMethods = [] ∧
    ((⟨"CSVDataSet", true, [], []⟩ : RecordTypeDecl).name
        = "InDBJSONDataSet" ∨
      ((⟨"CSVDataSet", true, [], []⟩ : RecordTypeDecl).isAbstract = true ∧
       (⟨"CSVDataSet", true, [], []⟩ : RecordTypeDecl).addedColumns = [])) :=
  claim_C7_amended_datasets_are_declarative.1
    ⟨"CSVDataSet", true, [], []⟩ (by decide)

/-- C8: `PreTrainedHuggingFaceAudioClassifier.predict` treats every numpy
array — whatever its dimensionality, including a 2-D array stacking several
clips — as one single input yielding one label-to-score mapping, because
`isinstance(audio_or_audios, (numpy.ndarray, str))` is checked before any
sequence handling; only a list, or a non-list non-string non-array sequence
(first converted to a list), yields a per-item sequence of mappings. -/
theorem claim_C8_ndarray_is_single_input {P ε S : Type}
    (ga : AudioItem → Nat → List (String × S)) (p : P) (a : NdArray)
    (xs : List AudioItem) (k : Nat) :
    (AudioInput.isSingle (AudioInput.arr a) = true) ∧
    (PreTrainedHuggingFaceAudioClassifier.predict (AudioPipeline.ofPure ga)
        (⟨none, p⟩ : HFState P (AudioPipeline ε S)) (AudioInput.arr a) k
      = Except.ok (⟨some (AudioPipeline.ofPure ga), p⟩,
          ClsOutput.dict (dictOfPairs (ga (AudioItem.arr a) k)))) ∧
    (PreTrainedHuggingFaceAudioClassifier.predictDefault
        (AudioPipeline.ofPure ga)
        (⟨none, p⟩ : HFState P (AudioPipeline ε S))
        (AudioInput.arr stackedClips)
      = Except.ok (⟨some (AudioPipeline.ofPure ga), p⟩,
          ClsOutput.dict (dictOfPairs (ga (AudioItem.arr stackedClips) 5)))) ∧
    (PreTrainedHuggingFaceAudioClassifier.predict (AudioPipeline.ofPure ga)
        (⟨none, p⟩ : HFState P (AudioPipeline ε S)) (AudioInput.list xs) k
      = Except.ok (⟨some (AudioPipeline.ofPure ga), p⟩,
          ClsOutput.list (xs.map (fun it => dictOfPairs (ga it k))))) ∧
    (PreTrainedHuggingFaceAudioClassifier.predict (AudioPipeline.ofPure ga)
        (⟨none, p⟩ : HFState P (AudioPipeline ε S)) (AudioInput.tup xs) k
      = Except.ok (⟨some (AudioPipeline.ofPure ga), p⟩,
          ClsOutput.list (xs.map (fun it => dictOfPairs (ga it k))))) := by
  refine ⟨rfl, ?_, ?_, ?_, ?_⟩ <;>
    simp [PreTrainedHuggingFaceAudioClassifier.predictDefault,
          PreTrainedHuggingFaceAudioClassifier.predict,
          PreTrainedHuggingFaceTransformer.load, audioNormalize,
          AudioPipeline.ofPure, mapExcept_ofOk, Except.map, Option.isNone]

/-- C9: `predict` never reaches the SDK with an uninitialized handle: it
calls `load` first, after which the client/pipeline handle is set (`isSome`),
and the state carried through the SDK invocation to the result is exactly the
post-`load` state, so the uninitialized-handle branch is unreachable inside
`predict`.  (The Hugging Face `load` is modelled from the spec, its `.base`
module being absent from the excerpt.) -/
theorem claim_C9_load_precedes_sdk_call {P ε S : Type} (mk : Client ε)
    (st : GTState P ε) (x : TextInput) (src dest : String)
    (mkT : TextPipeline ε S) (stT : HFState P (TextPipeline ε S)) :
    ((GoogleTranslate.load mk st).client.isSome = true) ∧
    ((PreTrainedHuggingFaceTransformer.load mkT stT).native_obj.isSome
        = true) ∧
    (∀ pr, GoogleTranslate.predict mk st x src dest = Except.ok pr →
       pr.1 = GoogleTranslate.load mk st) ∧
    (∀ pr, PreTrainedHuggingFaceTextClassifier.predict mkT stT x
        = Except.ok pr →
       pr.1 = PreTrainedHuggingFaceTransformer.load mkT stT) := by
  refine ⟨?_, ?_, ?_, ?_⟩
  · cases h : st.client <;>
      simp [GoogleTranslate.load, h, Option.isNone]
  · cases h : stT.native_obj <;>
      simp [PreTrainedHuggingFaceTransformer.load, h, Option.isNone]
  · intro pr h
    cases x <;>
      · simp only [GoogleTranslate.predict] at h
        obtain ⟨y, _, hpr⟩ := except_map_eq_ok _ _ _ h
        rw [hpr]
  · intro pr h
    cases x <;>
      · simp only [PreTrainedHuggingFaceTextClassifier.predict,
          textNormalize] at h
        obtain ⟨y, _, hpr⟩ := except_map_eq_ok _ _ _ h
        rw [hpr]

/-- Witness for C9 at concrete inputs: an echo translator on `"hi"` and the
fixed text pipeline on `"hi"`, both from a fresh instance. -/
theorem claim_C9_witness :
    ((GoogleTranslate.load idClient
        (⟨none, ()⟩ : GTState Unit Unit)).client.isSome = true) ∧
    ((PreTrainedHuggingFaceTransformer.load fixedTextPipeline
        (⟨none, ()⟩ : HFState Unit (TextPipeline Unit Nat))).native_obj.isSome
      = true) ∧
    (((⟨some idClient, ()⟩ : GTState Unit Unit), TextOutput.str "hi").1
      = GoogleTranslate.load idClient (⟨none, ()⟩ : GTState Unit Unit)) ∧
    (((⟨some fixedTextPipeline, ()⟩ :
          HFState Unit (TextPipeline Unit Nat)),
        ClsOutput.dict
          (dictOfPairs [("POSITIVE", 1), ("NEGATIVE", 0)])).1
      = PreTrainedHuggingFaceTransformer.load fixedTextPipeline
          (⟨none, ()⟩ : HFState Unit (TextPipeline Unit Nat))) := by
  obtain ⟨h1, h2, h3, h4⟩ := claim_C9_load_precedes_sdk_call idClient
    (⟨none, ()⟩ : GTState Unit Unit) (TextInput.str "hi") "auto" "en"
    fixedTextPipeline (⟨none, ()⟩ : HFState Unit (TextPipeline Unit Nat))
  exact ⟨h1, h2, h3 _ rfl, h4 _ rfl⟩

/-- C10: `load` and `predict` touch only the transient, non-persisted handle
(`client` / `native_obj`): the persisted configuration fields are unchanged
by either call, and the handle itself changes only the way `load` changes
it. -/
theorem claim_C10_only_handle_modified {P ε S : Type} (mk : Client ε)
    (st : GTState P ε) (x : TextInput) (src dest : String)
    (mkA : AudioPipeline ε S) (stA : HFState P (AudioPipeline ε S))
    (y : AudioInput) (k : Nat) :
    ((GoogleTranslate.load mk st).persisted = st.persisted) ∧
    ((PreTrainedHuggingFaceTransformer.load mkA stA).persisted
        = stA.persisted) ∧
    (∀ pr, GoogleTranslate.predict mk st x src dest = Except.ok pr →
       pr.1.persisted = st.persisted ∧
       pr.1.client = (GoogleTranslate.load mk st).client) ∧
    (∀ pr, PreTrainedHuggingFaceAudioClassifier.predict mkA stA y k
        = Except.ok pr →
       pr.1.persisted = stA.persisted ∧
       pr.1.native_obj
         = (PreTrainedHuggingFaceTransformer.load mkA stA).native_obj) := by
  have hgt : (GoogleTranslate.load mk st).persisted = st.persisted := by
    cases h : st.client <;> simp [GoogleTranslate.load, h, Option.isNone]
  have hhf : (PreTrainedHuggingFaceTransformer.load mkA stA).persisted
      = stA.persisted := by
    cases h : stA.native_obj <;>
      simp [PreTrainedHuggingFaceTransformer.load, h, Option.isNone]
  refine ⟨hgt, hhf, ?_, ?_⟩
  · intro pr h
    cases x <;>
      · simp only [GoogleTranslate.predict] at h
        obtain ⟨z, _, hpr⟩ := except_map_eq_ok _ _ _ h
        rw [hpr]
        exact ⟨hgt, rfl⟩
  · intro pr h
    cases y <;>
      · simp only [PreTrainedHuggingFaceAudioClassifier.predict,
          audioNormalize] at h
        obtain ⟨z, _, hpr⟩ := except_map_eq_ok _ _ _ h
        rw [hpr]
        exact ⟨hhf, rfl⟩

/-- Witness for C10 at concrete inputs: an echo translator on `"hi"` and the
fixed audio pipeline on a file-path string, both from a fresh instance
holding `0` as its persisted configuration. -/
theorem claim_C10_witness :
    ((GoogleTranslate.load idClient
        (⟨none, 0⟩ : GTState Nat Unit)).persisted = 0) ∧
    ((PreTrainedHuggingFaceTransformer.load fixedAudioPipeline
        (⟨none, 0⟩ : HFState Nat (AudioPipeline Unit Nat))).persisted
      = 0) ∧
    (((⟨some idClient, 0⟩ : GTState Nat Unit),
        TextOutput.str "hi").1.persisted = 0 ∧
      ((⟨some idClient, 0⟩ : GTState Nat Unit),
        TextOutput.str "hi").1.client
        = (GoogleTranslate.load idClient
            (⟨none, 0⟩ : GTState Nat Unit)).client) ∧
    (((⟨some fixedAudioPipeline, 0⟩ :
          HFState Nat (AudioPipeline Unit Nat)),
        ClsOutput.dict (dictOfPairs [("speech", 1)])).1.persisted = 0 ∧
      ((⟨some fixedAudioPipeline, 0⟩ :
          HFState Nat (AudioPipeline Unit Nat)),
        ClsOutput.dict (dictOfPairs [("speech", 1)])).1.native_obj
        = (PreTrainedHuggingFaceTransformer.load fixedAudioPipeline
            (⟨none, 0⟩ :
              HFState Nat (AudioPipeline Unit Nat))).native_obj) := by
  obtain ⟨h1, h2, h3, h4⟩ := claim_C10_only_handle_modified idClient
    (⟨none, 0⟩ : GTState Nat Unit) (TextInput.str "hi") "auto" "en"
    fixedAudioPipeline
    (⟨none, 0⟩ : HFState Nat (AudioPipeline Unit Nat))
    (AudioInput.str "clip.wav") 5
  exact ⟨h1, h2, h3 _ rfl, h4 _ rfl⟩

end DjAI
